import Mathlib

/-!
Shallow embedding of shell/model/homeactivity.py (class HomeActivity).

The class is a metadata holder for one running activity.  Its mutable
fields are _window, _xid, _service, _activity_id, _bundle, _launch_time,
_launched and _launch_timeout_id.  The constructor arms a gobject timeout
of 20000 ms whose callback emits the launch-timeout signal, zeroes the
handle and returns False.  set_window marks the activity launched,
removes the timeout source, zeroes the handle, and only then validates
its precondition and argument.  The getters get_title, get_xid,
get_window and get_shared check the _launched flag and raise
RuntimeError when it is False.

Python values are embedded as follows: a possibly-None reference is an
Option; Python truthiness of a window reference is isSome (a window
object is always truthy, None is falsy) and truthiness of an integer is
being nonzero; a raised exception is an explicit outcome constructor.
Because set_window mutates before it raises, it returns the updated
state together with its outcome.  The timestamp returned by time.time()
is abstracted as an integer parameter of the constructor.  The gobject
main loop is modelled by an explicit timerArmed flag: timeout_add arms
it, source_remove disarms it, and a callback that returns False stays
disarmed.  A trace is a list of the mutating entry points (set_window,
set_service) and scheduler deliveries of the armed timeout; the getters
are pure functions of the state and do not appear in traces.
-/

/-- A top-level window, as seen through the two methods the code calls
on it: get_xid and get_name. -/
structure Window where
  xid : Int
  name : String
  deriving DecidableEq, Repr

/-- The sugar introspection service of the activity, as seen through the
one method the code calls on it: get_shared. -/
structure Service where
  shared : Bool
  deriving DecidableEq, Repr

/-- An activity bundle, as seen through the two methods the code calls
on it: get_icon and get_service_name. -/
structure Bundle where
  icon : String
  service_name : String
  deriving DecidableEq, Repr

/-- XoColor, built from a colour string. -/
structure XoColor where
  color : String
  deriving DecidableEq, Repr

/-- A shared activity record from the presence service, as seen through
the one method the code calls on it: get_color. -/
structure SharedActivity where
  color : String
  deriving DecidableEq, Repr

/-- The fields of a HomeActivity instance, plus the timerArmed flag
modelling whether the gobject source registered by timeout_add is still
scheduled. -/
structure HomeActivityState where
  window : Option Window
  xid : Option Int
  service : Option Service
  activity_id : String
  bundle : Bundle
  launch_time : Int
  launched : Bool
  launch_timeout_id : Nat
  timerArmed : Bool
  deriving DecidableEq, Repr

/-- Outcome of a call to set_window: normal return, or one of the two
exceptions the method raises. -/
inductive SetWindowOutcome where
  | ok
  | runtimeError (msg : String)
  | valueError (msg : String)
  deriving DecidableEq, Repr

/-- Outcome of a getter: a value, a raised RuntimeError, or the
AttributeError Python raises when a method is called on None. -/
inductive PyResult (α : Type) where
  | ok (val : α)
  | runtimeError (msg : String)
  | attributeError (msg : String)
  deriving DecidableEq, Repr

/-- The launch-timeout signal emitted by _launch_timeout_cb. -/
inductive Event where
  | launchTimeout
  deriving DecidableEq, Repr

/-- Python truthiness of the _window field: None is falsy, a window
object is truthy. -/
def windowTruthy : Option Window → Bool
  | none => false
  | some _ => true

/-- Python truthiness of the _xid field: None and 0 are falsy, any other
integer is truthy. -/
def xidTruthy : Option Int → Bool
  | none => false
  | some n => n != 0

/-- The interval, in milliseconds, that __init__ passes to
gobject.timeout_add. -/
def launch_timeout_interval_ms : Nat := 20000

/-- __init__: window, xid and service start as None, activity_id and
bundle are stored, the timestamp is recorded, launched is False, and
timeout_add arms the launch timer returning the source handle tid. -/
def initActivity (bundle : Bundle) (activity_id : String) (launch_time : Int)
    (tid : Nat) : HomeActivityState :=
  { window := none
    xid := none
    service := none
    activity_id := activity_id
    bundle := bundle
    launch_time := launch_time
    launched := false
    launch_timeout_id := tid
    timerArmed := true }

/-- _launch_timeout_cb: zeroes _launch_timeout_id, emits launch-timeout,
and returns False to the scheduler. -/
def launch_timeout_cb (s : HomeActivityState) :
    HomeActivityState × List Event × Bool :=
  ({ s with launch_timeout_id := 0 }, [Event.launchTimeout], false)

/-- set_window: sets _launched to True, removes the timeout source and
zeroes the handle, THEN checks whether a window or xid is already
present (RuntimeError), then whether the argument is falsy (ValueError),
and only on success stores the window and its xid. -/
def set_window (s : HomeActivityState) (window : Option Window) :
    HomeActivityState × SetWindowOutcome :=
  let s1 := { s with launched := true, timerArmed := false, launch_timeout_id := 0 }
  if windowTruthy s.window || xidTruthy s.xid then
    (s1, SetWindowOutcome.runtimeError "Activity is already launched!")
  else
    match window with
    | none => (s1, SetWindowOutcome.valueError "window must be valid")
    | some w => ({ s1 with window := some w, xid := some w.xid }, SetWindowOutcome.ok)

/-- set_service: stores the service reference unconditionally. -/
def set_service (s : HomeActivityState) (service : Option Service) :
    HomeActivityState :=
  { s with service := service }

/-- get_service: returns the stored service reference (None until
set_service is called). -/
def get_service (s : HomeActivityState) : Option Service :=
  s.service

/-- get_title: raises RuntimeError when not launched, otherwise calls
get_name on the stored window (an AttributeError if it is None). -/
def get_title (s : HomeActivityState) : PyResult String :=
  if !s.launched then
    PyResult.runtimeError "Activity is still launching."
  else
    match s.window with
    | none => PyResult.attributeError "NoneType object has no attribute get_name"
    | some w => PyResult.ok w.name

/-- get_icon_name: delegates to the bundle, no launch-state check. -/
def get_icon_name (s : HomeActivityState) : String :=
  s.bundle.icon

/-- get_icon_color: looks the activity_id up in the presence service;
when a shared activity is found, returns XoColor of its colour, else
returns the profile colour.  The presence service and profile are
external collaborators, passed in as parameters. -/
def get_icon_color (pservice : String → Option SharedActivity)
    (profile_color : XoColor) (s : HomeActivityState) : XoColor :=
  match pservice s.activity_id with
  | some activity => XoColor.mk activity.color
  | none => profile_color

/-- get_activity_id: returns the stored activity_id, no launch-state
check. -/
def get_activity_id (s : HomeActivityState) : String :=
  s.activity_id

/-- get_xid: raises RuntimeError when not launched, otherwise returns
the stored xid (which may be None). -/
def get_xid (s : HomeActivityState) : PyResult (Option Int) :=
  if !s.launched then
    PyResult.runtimeError "Activity is still launching."
  else
    PyResult.ok s.xid

/-- get_window: raises RuntimeError when not launched, otherwise returns
the stored window reference (which may be None). -/
def get_window (s : HomeActivityState) : PyResult (Option Window) :=
  if !s.launched then
    PyResult.runtimeError "Activity is still launching."
  else
    PyResult.ok s.window

/-- get_type: delegates to the bundle, no launch-state check. -/
def get_type (s : HomeActivityState) : String :=
  s.bundle.service_name

/-- get_shared: raises RuntimeError when not launched, otherwise calls
get_shared on the stored service (an AttributeError if it is None). -/
def get_shared (s : HomeActivityState) : PyResult Bool :=
  if !s.launched then
    PyResult.runtimeError "Activity is still launching."
  else
    match s.service with
    | none => PyResult.attributeError "NoneType object has no attribute get_shared"
    | some svc => PyResult.ok svc.shared

/-- get_launch_time: returns the stored timestamp, no launch-state
check. -/
def get_launch_time (s : HomeActivityState) : Int :=
  s.launch_time

/-- get_launched: returns the _launched flag. -/
def get_launched (s : HomeActivityState) : Bool :=
  s.launched

/-- The mutating entry points of the object plus delivery of the armed
timeout by the gobject main loop. -/
inductive Op where
  | setWindow (w : Option Window)
  | setService (svc : Option Service)
  | timeoutFire
  deriving DecidableEq, Repr

/-- One transition: set_window and set_service update the state (a
raised exception propagates to the caller, so the trace continues from
the mutated state); timeoutFire runs _launch_timeout_cb if the source is
still scheduled, and the source stays scheduled only if the callback
returns True. -/
def step (s : HomeActivityState) (op : Op) : HomeActivityState × List Event :=
  match op with
  | Op.setWindow w => ((set_window s w).1, [])
  | Op.setService svc => (set_service s svc, [])
  | Op.timeoutFire =>
      if s.timerArmed then
        let r := launch_timeout_cb s
        ({ r.1 with timerArmed := r.2.2 }, r.2.1)
      else
        (s, [])

/-- State after running a trace of operations. -/
def runState : HomeActivityState → List Op → HomeActivityState
  | s, [] => s
  | s, op :: ops => runState (step s op).1 ops

/-- Events emitted while running a trace of operations. -/
def runEvents : HomeActivityState → List Op → List Event
  | _, [] => []
  | s, op :: ops => (step s op).2 ++ runEvents (step s op).1 ops

/-- The service reference that a trace leaves in place, starting from a
given one: the argument of the last setService in the trace. -/
def serviceAfter (init : Option Service) : List Op → Option Service
  | [] => init
  | Op.setService svc :: ops => serviceAfter svc ops
  | _ :: ops => serviceAfter init ops

/-- A sample bundle for concrete evaluations. -/
def sampleBundle : Bundle := { icon := "icon.svg", service_name := "org.example.Sample" }

/-- A freshly constructed sample activity for concrete evaluations. -/
def sampleInit : HomeActivityState := initActivity sampleBundle "aid-1" 100 7

/-- A sample window for concrete evaluations. -/
def sampleWindow : Window := { xid := 42, name := "Sample Window" }

/-- The sample activity after a successful set_window. -/
def sampleBound : HomeActivityState := (set_window sampleInit (some sampleWindow)).1

/-! ## Shared helper lemmas about traces -/

/-- One step never changes activity_id, bundle or launch_time. -/
theorem step_frame (s : HomeActivityState) (op : Op) :
    (step s op).1.activity_id = s.activity_id ∧
    (step s op).1.bundle = s.bundle ∧
    (step s op).1.launch_time = s.launch_time := by
  cases op with
  | setWindow w =>
      simp only [step, set_window]
      split
      · exact ⟨rfl, rfl, rfl⟩
      · cases w <;> exact ⟨rfl, rfl, rfl⟩
  | setService svc => exact ⟨rfl, rfl, rfl⟩
  | timeoutFire =>
      simp only [step, launch_timeout_cb]
      split
      · exact ⟨rfl, rfl, rfl⟩
      · exact ⟨rfl, rfl, rfl⟩

/-- A whole trace never changes activity_id, bundle or launch_time. -/
theorem runState_frame (s : HomeActivityState) (trace : List Op) :
    (runState s trace).activity_id = s.activity_id ∧
    (runState s trace).bundle = s.bundle ∧
    (runState s trace).launch_time = s.launch_time := by
  induction trace generalizing s with
  | nil => exact ⟨rfl, rfl, rfl⟩
  | cons op ops ih =>
      have h := step_frame s op
      have h2 := ih (step s op).1
      exact ⟨h2.1.trans h.1, h2.2.1.trans h.2.1, h2.2.2.trans h.2.2⟩

/-- Once the timeout source is removed, no step re-arms it. -/
theorem step_disarmed (s : HomeActivityState) (op : Op)
    (h : s.timerArmed = false) : (step s op).1.timerArmed = false := by
  cases op with
  | setWindow w =>
      simp only [step, set_window]
      split
      · rfl
      · cases w <;> rfl
  | setService svc => exact h
  | timeoutFire => simp [step, h]

/-- Once the timeout source is removed, it stays removed along any
trace. -/
theorem runState_disarmed (s : HomeActivityState) (trace : List Op)
    (h : s.timerArmed = false) : (runState s trace).timerArmed = false := by
  induction trace generalizing s with
  | nil => exact h
  | cons op ops ih => exact ih (step s op).1 (step_disarmed s op h)

/-- A step from a state whose timeout source is removed emits nothing. -/
theorem step_events_disarmed (s : HomeActivityState) (op : Op)
    (h : s.timerArmed = false) : (step s op).2 = [] := by
  cases op with
  | setWindow w => rfl
  | setService svc => rfl
  | timeoutFire => simp [step, h]

/-- A trace from a state whose timeout source is removed emits
nothing. -/
theorem runEvents_disarmed (s : HomeActivityState) (trace : List Op)
    (h : s.timerArmed = false) : runEvents s trace = [] := by
  induction trace generalizing s with
  | nil => rfl
  | cons op ops ih =>
      simp only [runEvents]
      rw [step_events_disarmed s op h, ih (step s op).1 (step_disarmed s op h)]
      rfl

/-- One step never resets the _launched flag. -/
theorem step_launched_mono (s : HomeActivityState) (op : Op)
    (h : s.launched = true) : (step s op).1.launched = true := by
  cases op with
  | setWindow w =>
      simp only [step, set_window]
      split
      · rfl
      · cases w <;> rfl
  | setService svc => exact h
  | timeoutFire =>
      simp only [step, launch_timeout_cb]
      split
      · exact h
      · exact h

/-- A whole trace never resets the _launched flag. -/
theorem runState_launched_mono (s : HomeActivityState) (trace : List Op)
    (h : s.launched = true) : (runState s trace).launched = true := by
  induction trace generalizing s with
  | nil => exact h
  | cons op ops ih => exact ih (step s op).1 (step_launched_mono s op h)

/-- Along any trace the launch-timeout signal is emitted at most
if-armed-then-once. -/
theorem runEvents_length_le (s : HomeActivityState) (trace : List Op) :
    (runEvents s trace).length ≤ (if s.timerArmed then 1 else 0) := by
  induction trace generalizing s with
  | nil => simp [runEvents]
  | cons op ops ih =>
      simp only [runEvents, List.length_append]
      cases op with
      | setWindow w =>
          have harm : (step s (Op.setWindow w)).1.timerArmed = false := by
            simp only [step, set_window]
            split
            · rfl
            · cases w <;> rfl
          have hnil : (step s (Op.setWindow w)).2 = [] := rfl
          rw [hnil, runEvents_disarmed _ ops harm]
          split <;> simp
      | setService svc =>
          have h := ih (step s (Op.setService svc)).1
          have harm : (step s (Op.setService svc)).1.timerArmed = s.timerArmed := rfl
          rw [harm] at h
          have hnil : (step s (Op.setService svc)).2 = [] := rfl
          rw [hnil]
          simpa using h
      | timeoutFire =>
          cases harm : s.timerArmed with
          | false =>
              have hev : (step s Op.timeoutFire).2 = [] := by simp [step, harm]
              have hst : (step s Op.timeoutFire).1 = s := by simp [step, harm]
              rw [hev, hst, runEvents_disarmed s ops harm]
              simp
          | true =>
              have hev : (step s Op.timeoutFire).2 = [Event.launchTimeout] := by
                simp [step, harm, launch_timeout_cb]
              have hdis : (step s Op.timeoutFire).1.timerArmed = false := by
                simp [step, harm, launch_timeout_cb]
              rw [hev, runEvents_disarmed _ ops hdis]
              simp

/-- If a trace contains no setWindow operation, the _launched flag stays
False. -/
theorem runState_launched_false (s : HomeActivityState) (trace : List Op)
    (hop : ∀ w, Op.setWindow w ∉ trace) (h : s.launched = false) :
    (runState s trace).launched = false := by
  induction trace generalizing s with
  | nil => exact h
  | cons op ops ih =>
      have hop2 : ∀ w, Op.setWindow w ∉ ops := by
        intro w hw
        exact hop w (List.mem_cons_of_mem op hw)
      have hstep : (step s op).1.launched = false := by
        cases op with
        | setWindow w => exact absurd (List.mem_cons_self _ _) (hop w)
        | setService svc => exact h
        | timeoutFire =>
            simp only [step, launch_timeout_cb]
            split
            · exact h
            · exact h
      exact ih (step s op).1 hop2 hstep

/-- The _service field after a trace is the argument of its last
setService operation. -/
theorem runState_service (s : HomeActivityState) (trace : List Op) :
    (runState s trace).service = serviceAfter s.service trace := by
  induction trace generalizing s with
  | nil => rfl
  | cons op ops ih =>
      cases op with
      | setWindow w =>
          have hsrv : (step s (Op.setWindow w)).1.service = s.service := by
            simp only [step, set_window]
            split
            · rfl
            · cases w <;> rfl
          simp only [runState, serviceAfter, ih (step s (Op.setWindow w)).1, hsrv]
      | setService svc =>
          have hsrv : (step s (Op.setService svc)).1.service = svc := rfl
          simp only [runState, serviceAfter, ih (step s (Op.setService svc)).1, hsrv]
      | timeoutFire =>
          have hsrv : (step s Op.timeoutFire).1.service = s.service := by
            simp only [step, launch_timeout_cb]
            split
            · rfl
            · rfl
          simp only [runState, serviceAfter, ih (step s Op.timeoutFire).1, hsrv]

/-! ## Claim theorems -/

/-- C1: once set_window has successfully bound a window (so the _window
field holds one), any further call to set_window raises
RuntimeError "Activity is already launched!" and leaves the previously
bound window and xid unchanged. -/
theorem set_window_at_most_once (s : HomeActivityState) (w : Window)
    (w2 : Option Window) (h : s.window = some w) :
    (set_window s w2).2 =
      SetWindowOutcome.runtimeError "Activity is already launched!" ∧
    (set_window s w2).1.window = s.window ∧
    (set_window s w2).1.xid = s.xid := by
  simp [set_window, h, windowTruthy]

/-- Witness for C1: rebinding the sample activity after a successful
bind raises and changes nothing. -/
theorem set_window_at_most_once_witness :
    (set_window sampleBound (some (Window.mk 99 "Other"))).2 =
      SetWindowOutcome.runtimeError "Activity is already launched!" ∧
    (set_window sampleBound (some (Window.mk 99 "Other"))).1.window =
      sampleBound.window ∧
    (set_window sampleBound (some (Window.mk 99 "Other"))).1.xid =
      sampleBound.xid :=
  set_window_at_most_once sampleBound sampleWindow (some (Window.mk 99 "Other")) rfl

/-- Counterexample to C2 as stated: after set_window(None), which raised
ValueError and hence never completed without raising, no window has ever
been bound, yet get_title does not raise the
RuntimeError "Activity is still launching." (it dereferences None) and
get_xid returns None without raising at all. -/
theorem getters_after_failed_set_window :
    (set_window sampleInit none).2 =
      SetWindowOutcome.valueError "window must be valid" ∧
    (set_window sampleInit none).1.window = none ∧
    get_title (set_window sampleInit none).1 ≠
      PyResult.runtimeError "Activity is still launching." ∧
    get_xid (set_window sampleInit none).1 = PyResult.ok none := by
  decide

/-- C2 amended: on a HomeActivity on which set_window has never been
called (the property the _launched flag actually tracks), get_title,
get_xid, get_window and get_shared all raise
RuntimeError "Activity is still launching.". -/
theorem getters_raise_before_set_window (bundle : Bundle) (aid : String)
    (t : Int) (tid : Nat) (trace : List Op)
    (hop : ∀ w, Op.setWindow w ∉ trace) :
    get_title (runState (initActivity bundle aid t tid) trace) =
      PyResult.runtimeError "Activity is still launching." ∧
    get_xid (runState (initActivity bundle aid t tid) trace) =
      PyResult.runtimeError "Activity is still launching." ∧
    get_window (runState (initActivity bundle aid t tid) trace) =
      PyResult.runtimeError "Activity is still launching." ∧
    get_shared (runState (initActivity bundle aid t tid) trace) =
      PyResult.runtimeError "Activity is still launching." := by
  have h := runState_launched_false (initActivity bundle aid t tid) trace hop rfl
  refine ⟨?_, ?_, ?_, ?_⟩ <;>
    simp [get_title, get_xid, get_window, get_shared, h]

/-- Witness for the amended C2: a trace with a set_service and a timeout
delivery but no set_window leaves all four getters raising. -/
theorem getters_raise_before_set_window_witness :
    get_title (runState (initActivity sampleBundle "aid-1" 100 7)
        [Op.setService none, Op.timeoutFire]) =
      PyResult.runtimeError "Activity is still launching." ∧
    get_xid (runState (initActivity sampleBundle "aid-1" 100 7)
        [Op.setService none, Op.timeoutFire]) =
      PyResult.runtimeError "Activity is still launching." ∧
    get_window (runState (initActivity sampleBundle "aid-1" 100 7)
        [Op.setService none, Op.timeoutFire]) =
      PyResult.runtimeError "Activity is still launching." ∧
    get_shared (runState (initActivity sampleBundle "aid-1" 100 7)
        [Op.setService none, Op.timeoutFire]) =
      PyResult.runtimeError "Activity is still launching." :=
  getters_raise_before_set_window sampleBundle "aid-1" 100 7
    [Op.setService none, Op.timeoutFire] (fun w => by simp)

/-- Counterexample to C3 as stated: from a fresh activity whose timer is
armed, a call to set_window with an invalid argument raises ValueError
and binds no window, yet it disarms the timer and zeroes the handle: the
armed timer becomes disarmed in a transition that is neither the timeout
firing nor a successful window binding. -/
theorem timer_disarmed_without_bind :
    sampleInit.timerArmed = true ∧
    (set_window sampleInit none).2 =
      SetWindowOutcome.valueError "window must be valid" ∧
    (set_window sampleInit none).1.window = none ∧
    (set_window sampleInit none).1.timerArmed = false ∧
    (set_window sampleInit none).1.launch_timeout_id = 0 := by
  decide

/-- C3 amended: an armed timer becomes disarmed exactly on the timeout
firing or on any call to set_window, successful or not; whenever it is
disarmed by a step, the pending-timeout handle is also set to 0. -/
theorem timer_disarm_characterization (s : HomeActivityState) (op : Op)
    (h : s.timerArmed = true) :
    ((step s op).1.timerArmed = false ↔
      (op = Op.timeoutFire ∨ ∃ w, op = Op.setWindow w)) ∧
    ((step s op).1.timerArmed = false →
      (step s op).1.launch_timeout_id = 0) := by
  cases op with
  | setWindow w =>
      have harm : (step s (Op.setWindow w)).1.timerArmed = false := by
        simp only [step, set_window]
        split
        · rfl
        · cases w <;> rfl
      have hid : (step s (Op.setWindow w)).1.launch_timeout_id = 0 := by
        simp only [step, set_window]
        split
        · rfl
        · cases w <;> rfl
      exact ⟨⟨fun _ => Or.inr ⟨w, rfl⟩, fun _ => harm⟩, fun _ => hid⟩
  | setService svc =>
      have harm : (step s (Op.setService svc)).1.timerArmed = true := h
      rw [harm]
      constructor
      · simp
      · simp
  | timeoutFire =>
      have harm : (step s Op.timeoutFire).1.timerArmed = false := by
        simp [step, h, launch_timeout_cb]
      have hid : (step s Op.timeoutFire).1.launch_timeout_id = 0 := by
        simp [step, h, launch_timeout_cb]
      exact ⟨⟨fun _ => Or.inl rfl, fun _ => harm⟩, fun _ => hid⟩

/-- Witness for the amended C3: delivering the timeout on the freshly
constructed sample activity disarms and zeroes the handle. -/
theorem timer_disarm_characterization_witness :
    ((step sampleInit Op.timeoutFire).1.timerArmed = false ↔
      (Op.timeoutFire = Op.timeoutFire ∨
        ∃ w, Op.timeoutFire = Op.setWindow w)) ∧
    ((step sampleInit Op.timeoutFire).1.timerArmed = false →
      (step sampleInit Op.timeoutFire).1.launch_timeout_id = 0) :=
  timer_disarm_characterization sampleInit Op.timeoutFire rfl

/-- C4: the interval handed to timeout_add is 20000 ms; the callback
returns False to the scheduler so the source is never rescheduled; along
any trace from construction the launch-timeout signal is emitted at most
once; and after any call to set_window (which removes the source) the
signal is never emitted again. -/
theorem launch_timeout_at_most_once :
    launch_timeout_interval_ms = 20000 ∧
    (∀ s : HomeActivityState, (launch_timeout_cb s).2.2 = false) ∧
    (∀ (bundle : Bundle) (aid : String) (t : Int) (tid : Nat)
        (trace : List Op),
      (runEvents (initActivity bundle aid t tid) trace).length ≤ 1) ∧
    (∀ (s : HomeActivityState) (w : Option Window) (trace : List Op),
      runEvents (set_window s w).1 trace = []) := by
  refine ⟨rfl, fun s => rfl, ?_, ?_⟩
  · intro bundle aid t tid trace
    have h := runEvents_length_le (initActivity bundle aid t tid) trace
    simpa using h
  · intro s w trace
    apply runEvents_disarmed
    simp only [set_window]
    split
    · rfl
    · cases w <;> rfl

/-- C5: get_icon_color returns XoColor of the presence-service colour
when the lookup of the constructor's activity_id finds a shared
activity, and the profile colour otherwise, in every reachable state. -/
theorem get_icon_color_spec (bundle : Bundle) (aid : String) (t : Int)
    (tid : Nat) (trace : List Op)
    (pservice : String → Option SharedActivity) (profile_color : XoColor) :
    (∀ act, pservice aid = some act →
      get_icon_color pservice profile_color
        (runState (initActivity bundle aid t tid) trace) =
        XoColor.mk act.color) ∧
    (pservice aid = none →
      get_icon_color pservice profile_color
        (runState (initActivity bundle aid t tid) trace) = profile_color) := by
  have hid : (runState (initActivity bundle aid t tid) trace).activity_id = aid :=
    (runState_frame _ trace).1
  constructor
  · intro act hact
    simp [get_icon_color, hid, hact]
  · intro hnone
    simp [get_icon_color, hid, hnone]

/-- Witness for C5: with a presence service that knows the sample
activity, get_icon_color returns its colour. -/
theorem get_icon_color_spec_witness :
    get_icon_color (fun _ => some (SharedActivity.mk "#A0B0C0,#D0E0F0"))
      (XoColor.mk "#111111,#222222")
      (runState (initActivity sampleBundle "aid-1" 100 7) []) =
      XoColor.mk "#A0B0C0,#D0E0F0" :=
  (get_icon_color_spec sampleBundle "aid-1" 100 7 []
      (fun _ => some (SharedActivity.mk "#A0B0C0,#D0E0F0"))
      (XoColor.mk "#111111,#222222")).1
    (SharedActivity.mk "#A0B0C0,#D0E0F0") rfl

/-- C6: get_launched is False right after construction, and once it is
True no later sequence of operations makes it False again. -/
theorem launched_monotone (bundle : Bundle) (aid : String) (t : Int)
    (tid : Nat) (s : HomeActivityState) (trace : List Op)
    (h : get_launched s = true) :
    get_launched (initActivity bundle aid t tid) = false ∧
    get_launched (runState s trace) = true :=
  ⟨rfl, runState_launched_mono s trace h⟩

/-- Witness for C6: the sample bound activity stays launched through a
timeout delivery and a set_service. -/
theorem launched_monotone_witness :
    get_launched (initActivity sampleBundle "aid-1" 100 7) = false ∧
    get_launched (runState sampleBound [Op.timeoutFire, Op.setService none]) =
      true :=
  launched_monotone sampleBundle "aid-1" 100 7 sampleBound
    [Op.timeoutFire, Op.setService none] rfl

/-- C7: calling set_window with the falsy argument None on an activity
with no window or xid bound raises ValueError without binding anything,
yet it has already set the launched flag, removed the timeout source and
zeroed the handle, so get_launched returns True and the launch-timeout
signal can never be emitted afterwards. -/
theorem set_window_invalid_not_atomic (s : HomeActivityState)
    (trace : List Op) (h1 : windowTruthy s.window = false)
    (h2 : xidTruthy s.xid = false) :
    (set_window s none).2 = SetWindowOutcome.valueError "window must be valid" ∧
    (set_window s none).1.window = s.window ∧
    (set_window s none).1.xid = s.xid ∧
    get_launched (set_window s none).1 = true ∧
    (set_window s none).1.timerArmed = false ∧
    (set_window s none).1.launch_timeout_id = 0 ∧
    runEvents (set_window s none).1 trace = [] := by
  have hguard : (windowTruthy s.window || xidTruthy s.xid) = false := by
    rw [h1, h2]
    rfl
  have heq : set_window s none =
      ({ s with launched := true, timerArmed := false, launch_timeout_id := 0 },
        SetWindowOutcome.valueError "window must be valid") := by
    simp [set_window, hguard]
  rw [heq]
  exact ⟨rfl, rfl, rfl, rfl, rfl, rfl, runEvents_disarmed _ trace rfl⟩

/-- Witness for C7: set_window None on the fresh sample activity. -/
theorem set_window_invalid_not_atomic_witness :
    (set_window sampleInit none).2 =
      SetWindowOutcome.valueError "window must be valid" ∧
    (set_window sampleInit none).1.window = sampleInit.window ∧
    (set_window sampleInit none).1.xid = sampleInit.xid ∧
    get_launched (set_window sampleInit none).1 = true ∧
    (set_window sampleInit none).1.timerArmed = false ∧
    (set_window sampleInit none).1.launch_timeout_id = 0 ∧
    runEvents (set_window sampleInit none).1 [Op.timeoutFire] = [] :=
  set_window_invalid_not_atomic sampleInit [Op.timeoutFire] rfl rfl

/-- C8: get_launch_time returns the timestamp recorded at construction
after every sequence of operations; no operation modifies it (and the
getters, being pure functions of the state, modify nothing). -/
theorem launch_time_immutable (bundle : Bundle) (aid : String) (t : Int)
    (tid : Nat) (trace : List Op) :
    get_launch_time (runState (initActivity bundle aid t tid) trace) = t :=
  (runState_frame _ trace).2.2

/-- C9: get_activity_id, get_icon_name and get_type carry no
launch-state check (their embeddings are total functions that never
produce a PyResult error) and return the constructor's activity_id and
the bundle's icon and service name in every reachable state; get_service
returns None until set_service is called and thereafter the argument of
the most recent set_service. -/
theorem stateless_getters_spec (bundle : Bundle) (aid : String) (t : Int)
    (tid : Nat) (trace : List Op) :
    get_activity_id (runState (initActivity bundle aid t tid) trace) = aid ∧
    get_icon_name (runState (initActivity bundle aid t tid) trace) =
      bundle.icon ∧
    get_type (runState (initActivity bundle aid t tid) trace) =
      bundle.service_name ∧
    get_service (runState (initActivity bundle aid t tid) trace) =
      serviceAfter none trace := by
  have hf := runState_frame (initActivity bundle aid t tid) trace
  have hs := runState_service (initActivity bundle aid t tid) trace
  refine ⟨hf.1, ?_, ?_, hs⟩
  · simp only [get_icon_name, hf.2.1]
    rfl
  · simp only [get_type, hf.2.1]
    rfl
